import Mathlib

/-!
Shallow embedding of the AT24CM0X serial-EEPROM driver
(src/at24cm0x.c, src/at24cm0x.h).

The driver talks to the chip through a TWI/I2C transport whose header
(twi.h) belongs to the parent project and is not part of this repository.
The transport is therefore modelled as a mock bus: every primitive appends
an observable event to a trace, and the error value returned by each
fallible primitive (twi_address, twi_set, twi_get) as well as the byte
delivered by twi_get are supplied by an environment indexed by call count.
Preprocessor feature flags become fields of a `Config` record; the global
`at24cm0x_device_identifier` becomes an explicit `id` argument, which is
faithful because no driver function assigns it outside of
`at24cm0x_init` and `at24cm0x_device`.
-/

/-- Direction of the addressed phase of a TWI transaction.
Modelled from the spec: twi.h is not under src/; the spec describes the
addressed phase as carrying a direction in the set containing WRITE and READ. -/
inductive TWIDirection where
  | wr
  | rd
  deriving DecidableEq, Repr

/-- Master acknowledge policy for a received byte.
Modelled from the spec: twi.h is not under src/; the spec describes byte
reception with an acknowledge policy in the set containing ACK and NACK. -/
inductive AckPolicy where
  | ack
  | nack
  deriving DecidableEq, Repr

/-- Write-protect modes, mirroring enum AT24CM0X_WP_Mode_t of src/at24cm0x.h. -/
inductive AT24CM0X_WP_Mode where
  | enabled
  | disabled
  deriving DecidableEq, Repr

/-- Observable calls into the transport, delay and write-protect collaborators. -/
inductive BusEvent where
  | start
  | stop
  | address (b : Nat) (d : TWIDirection)
  | send (b : Nat)
  | recv (p : AckPolicy)
  | wp (m : AT24CM0X_WP_Mode)
  | waitms (n : Nat)
  deriving DecidableEq, Repr

/-- Status codes, mirroring enum AT24CM0X_Status_t of src/at24cm0x.h. -/
inductive AT24CM0X_Status where
  | done
  | addressError
  | pageError
  | sizeError
  | dataError
  | twiError
  | generalError
  deriving DecidableEq, Repr

/-- Build-time configuration surface of src/at24cm0x.h: the macro values and
the preprocessor feature flags. -/
structure Config where
  memory_size : Nat
  pages : Nat
  page_size : Nat
  write_cycle_ms : Nat
  address_a2 : Nat
  address_a1 : Nat
  wp_control_en : Bool
  multi_devices : Bool
  write_ack_polling : Bool
  integrity_check : Bool
  deriving DecidableEq, Repr

/-- AT24CM0X_BASE_ADDRESS of src/at24cm0x.h. -/
def AT24CM0X_BASE_ADDRESS : Nat := 0x50

/-- AT24CM0X_ADDRESS_MASK of src/at24cm0x.h, derived from the memory size. -/
def AT24CM0X_ADDRESS_MASK (cfg : Config) : Nat :=
  if cfg.memory_size < 262144 then 0x06 else 0x04

/-- AT24CM0X_ADDRESS_HIGH_MASK of src/at24cm0x.h, derived from the memory size. -/
def AT24CM0X_ADDRESS_HIGH_MASK (cfg : Config) : Nat :=
  if cfg.memory_size < 262144 then 0x01 else 0x03

/-- AT24CM0X_ADDRESS of src/at24cm0x.h (single-device builds). -/
def AT24CM0X_ADDRESS (cfg : Config) : Nat :=
  if cfg.memory_size < 262144 then
    AT24CM0X_BASE_ADDRESS ||| (cfg.address_a2 <<< 2) ||| (cfg.address_a1 <<< 1)
  else
    AT24CM0X_BASE_ADDRESS ||| (cfg.address_a2 <<< 2)

/-- TWI error value for a completed primitive.
Modelled from the spec: twi.h is not under src/; zero means no fault, and
the driver OR-accumulates the nonzero fault codes. -/
def TWI_None : Nat := 0

/-- TWI acknowledge-error value.
Modelled from the spec: twi.h is not under src/; per the spec the addressed
phase reports ACK or NACK, so twi_address is modelled as returning TWI_None
when the device acknowledged and the distinguished nonzero code TWI_Ack when
the device answered NACK. -/
def TWI_Ack : Nat := 3

/-- The mock bus: an environment (`errs`, `data`) indexed by call counts,
plus the trace of collaborator calls made so far. -/
@[ext]
structure Bus where
  errs : Nat → Nat
  data : Nat → Nat
  ecnt : Nat := 0
  rcnt : Nat := 0
  trace : List BusEvent := []

/-- twi_start: emit a start condition. -/
def twi_start (s : Bus) : Bus :=
  { s with trace := s.trace ++ [BusEvent.start] }

/-- twi_stop: emit a stop condition. -/
def twi_stop (s : Bus) : Bus :=
  { s with trace := s.trace ++ [BusEvent.stop] }

/-- twi_address: emit the addressed phase, returning the environment's error. -/
def twi_address (b : Nat) (d : TWIDirection) (s : Bus) : Nat × Bus :=
  (s.errs s.ecnt,
   { s with ecnt := s.ecnt + 1, trace := s.trace ++ [BusEvent.address b d] })

/-- twi_set: transmit one data byte, returning the environment's error. -/
def twi_set (b : Nat) (s : Bus) : Nat × Bus :=
  (s.errs s.ecnt,
   { s with ecnt := s.ecnt + 1, trace := s.trace ++ [BusEvent.send b] })

/-- twi_get: receive one data byte under an acknowledge policy, returning the
environment's error and the received byte. -/
def twi_get (p : AckPolicy) (s : Bus) : Nat × Nat × Bus :=
  (s.errs s.ecnt, s.data s.rcnt % 256,
   { s with ecnt := s.ecnt + 1, rcnt := s.rcnt + 1,
            trace := s.trace ++ [BusEvent.recv p] })

/-- at24cm0x_wp: drive the write-protect pin. -/
def at24cm0x_wp (m : AT24CM0X_WP_Mode) (s : Bus) : Bus :=
  { s with trace := s.trace ++ [BusEvent.wp m] }

/-- systick_timer_wait_ms: blocking millisecond delay. -/
def systick_timer_wait_ms (n : Nat) (s : Bus) : Bus :=
  { s with trace := s.trace ++ [BusEvent.waitms n] }

/-- The identifier stored by at24cm0x_init (src/at24cm0x.c lines 32-43). -/
def at24cm0x_init_id (cfg : Config) : Nat :=
  if cfg.multi_devices then AT24CM0X_BASE_ADDRESS else AT24CM0X_ADDRESS cfg

/-- at24cm0x_init (src/at24cm0x.c lines 32-43): assert WP when compiled in and
return the stored device identifier. -/
def at24cm0x_init (cfg : Config) (s : Bus) : Nat × Bus :=
  (at24cm0x_init_id cfg,
   if cfg.wp_control_en then at24cm0x_wp AT24CM0X_WP_Mode.enabled s else s)

/-- at24cm0x_device (src/at24cm0x.c lines 54-57): the identifier stored in
multi-device builds. -/
def at24cm0x_device (cfg : Config) (identifier : Nat) : Nat :=
  AT24CM0X_BASE_ADDRESS ||| (identifier &&& AT24CM0X_ADDRESS_MASK cfg)

/-- The do-while loop of at24cm0x_write_acknowledge_polling
(src/at24cm0x.c lines 65-69), with explicit fuel standing for the number of
available loop iterations; none models exhausting the fuel before the device
acknowledges. -/
def ack_polling_loop (id : Nat) : Nat → Bus → Option Bus
  | 0, _ => none
  | fuel + 1, s =>
    let s1 := twi_start s
    let r := twi_address id TWIDirection.wr s1
    if r.fst = TWI_Ack then ack_polling_loop id fuel r.snd else some r.snd

/-- at24cm0x_write_acknowledge_polling (src/at24cm0x.c lines 61-71). -/
def at24cm0x_write_acknowledge_polling (id fuel : Nat) (s : Bus) : Option Bus :=
  Option.map twi_stop (ack_polling_loop id fuel s)

/-- The high byte computed by at24cm0x_send_address (src/at24cm0x.c line 76);
the cast of address>>16 to unsigned char and the store into the unsigned char
local are the two % 256 reductions. -/
def at24cm0x_select_byte (cfg : Config) (id address : Nat) : Nat :=
  (id ||| (AT24CM0X_ADDRESS_HIGH_MASK cfg &&& ((address >>> 16) % 256))) % 256

/-- at24cm0x_send_address (src/at24cm0x.c lines 74-87). -/
def at24cm0x_send_address (cfg : Config) (id address : Nat) (s : Bus) : Nat × Bus :=
  let high_byte := at24cm0x_select_byte cfg id address
  let middle_byte := (address >>> 8) % 256
  let low_byte := address % 256
  let r1 := twi_address high_byte TWIDirection.wr s
  let r2 := twi_set middle_byte r1.snd
  let r3 := twi_set low_byte r2.snd
  (TWI_None ||| r1.fst ||| r2.fst ||| r3.fst, r3.snd)

/-- at24cm0x_read_byte (src/at24cm0x.c lines 280-304). `temp0` is the content
of the caller's out-parameter before the call, returned unchanged on the
early-validation path. -/
def at24cm0x_read_byte (cfg : Config) (id address temp0 : Nat) (s : Bus) :
    AT24CM0X_Status × Nat × Bus :=
  if cfg.memory_size ≤ address then (AT24CM0X_Status.addressError, temp0, s)
  else
    let status := AT24CM0X_Status.done
    let s1 := twi_start s
    let r1 := at24cm0x_send_address cfg id address s1
    let s2 := twi_stop r1.snd
    let s3 := twi_start s2
    let r2 := twi_address id TWIDirection.rd s3
    let r3 := twi_get AckPolicy.nack r2.snd
    let s4 := twi_stop r3.snd.snd
    let error := TWI_None ||| r1.fst ||| r2.fst ||| r3.fst
    if error ≠ TWI_None ∨ status ≠ AT24CM0X_Status.done then
      (AT24CM0X_Status.twiError, r3.snd.fst, s4)
    else (AT24CM0X_Status.done, r3.snd.fst, s4)

/-- The receive loop of at24cm0x_read_sequential (src/at24cm0x.c lines
344-353), structurally recursing on the number of bytes still to read: the
acknowledge policy is NACK exactly for the final byte. -/
def at24cm0x_read_loop : Nat → Bus → Nat × List Nat × Bus
  | 0, s => (TWI_None, [], s)
  | n + 1, s =>
    let ackp := if n = 0 then AckPolicy.nack else AckPolicy.ack
    let r := twi_get ackp s
    let rest := at24cm0x_read_loop n r.snd.snd
    (r.fst ||| rest.fst, r.snd.fst :: rest.snd.fst, rest.snd.snd)

/-- at24cm0x_read_sequential (src/at24cm0x.c lines 322-361), returning the
list of bytes stored into the caller's buffer. -/
def at24cm0x_read_sequential (cfg : Config) (id address size : Nat) (s : Bus) :
    AT24CM0X_Status × List Nat × Bus :=
  if cfg.memory_size ≤ address then (AT24CM0X_Status.addressError, [], s)
  else if size = 0 then (AT24CM0X_Status.sizeError, [], s)
  else
    let status := AT24CM0X_Status.done
    let s1 := twi_start s
    let r1 := at24cm0x_send_address cfg id address s1
    let s2 := twi_stop r1.snd
    let s3 := twi_start s2
    let r2 := twi_address id TWIDirection.rd s3
    let r3 := at24cm0x_read_loop size r2.snd
    let s4 := twi_stop r3.snd.snd
    let error := TWI_None ||| r1.fst ||| r2.fst ||| r3.fst
    if error ≠ TWI_None ∨ status ≠ AT24CM0X_Status.done then
      (AT24CM0X_Status.twiError, r3.snd.fst, s4)
    else (AT24CM0X_Status.done, r3.snd.fst, s4)

/-- The write-completion wait chosen at build time (src/at24cm0x.c lines
122-126 and 201-205): acknowledge polling or the fixed write-cycle delay. -/
def at24cm0x_write_cycle_wait (cfg : Config) (id fuel : Nat) (s : Bus) : Option Bus :=
  if cfg.write_ack_polling then at24cm0x_write_acknowledge_polling id fuel s
  else some (systick_timer_wait_ms cfg.write_cycle_ms s)

/-- The bus transaction of at24cm0x_write_byte (src/at24cm0x.c lines 113-130):
WP handling, start, address phase, data byte, stop, write-completion wait,
WP re-assertion; yields the accumulated error flag. -/
def at24cm0x_write_byte_txn (cfg : Config) (id address data fuel : Nat) (s : Bus) :
    Option (Nat × Bus) :=
  let s0 := if cfg.wp_control_en then at24cm0x_wp AT24CM0X_WP_Mode.disabled s else s
  let s1 := twi_start s0
  let r1 := at24cm0x_send_address cfg id address s1
  let r2 := twi_set data r1.snd
  let s2 := twi_stop r2.snd
  let error := TWI_None ||| r1.fst ||| r2.fst
  match at24cm0x_write_cycle_wait cfg id fuel s2 with
  | none => none
  | some s3 =>
    let s4 := if cfg.wp_control_en then at24cm0x_wp AT24CM0X_WP_Mode.enabled s3 else s3
    some (error, s4)

/-- at24cm0x_write_byte (src/at24cm0x.c lines 104-152). -/
def at24cm0x_write_byte (cfg : Config) (id address data fuel : Nat) (s : Bus) :
    Option (AT24CM0X_Status × Bus) :=
  if cfg.memory_size ≤ address then some (AT24CM0X_Status.addressError, s)
  else
    match at24cm0x_write_byte_txn cfg id address data fuel s with
    | none => none
    | some (error, s1) =>
      if error ≠ TWI_None then some (AT24CM0X_Status.twiError, s1)
      else if cfg.integrity_check then
        let r := at24cm0x_read_byte cfg id address 0 s1
        if r.fst ≠ AT24CM0X_Status.done then some (AT24CM0X_Status.twiError, r.snd.snd)
        else if data ≠ r.snd.fst then some (AT24CM0X_Status.dataError, r.snd.snd)
        else some (AT24CM0X_Status.done, r.snd.snd)
      else some (AT24CM0X_Status.done, s1)

/-- The transmit loop of at24cm0x_write_page (src/at24cm0x.c lines 195-198):
send data[i], data[i+1], ... for the given remaining count, OR-accumulating
the transmit errors. -/
def at24cm0x_write_loop (data : Nat → Nat) : Nat → Nat → Bus → Nat × Bus
  | _, 0, s => (TWI_None, s)
  | i, n + 1, s =>
    let r := twi_set (data i) s
    let rest := at24cm0x_write_loop data (i + 1) n r.snd
    (r.fst ||| rest.fst, rest.snd)

/-- The byte-by-byte comparison loop of the integrity check of
at24cm0x_write_page (src/at24cm0x.c lines 219-225): true when some index
below `size` differs between the read-back buffer and the caller's data. -/
def at24cm0x_page_mismatch (buffer : List Nat) (data : Nat → Nat) (size : Nat) : Bool :=
  (List.range size).any fun i => buffer.getD i 0 != data i

/-- The bus transaction of at24cm0x_write_page (src/at24cm0x.c lines 188-209).
The error returned by at24cm0x_send_address is discarded, exactly as in the
source (line 193 uses no error |= ...); only transmit-loop errors reach the
accumulated flag. -/
def at24cm0x_write_page_txn (cfg : Config) (id address : Nat) (data : Nat → Nat)
    (size fuel : Nat) (s : Bus) : Option (Nat × Bus) :=
  let s0 := if cfg.wp_control_en then at24cm0x_wp AT24CM0X_WP_Mode.disabled s else s
  let s1 := twi_start s0
  let r1 := at24cm0x_send_address cfg id address s1
  let rloop := at24cm0x_write_loop data 0 size r1.snd
  let error := TWI_None ||| rloop.fst
  let s2 := twi_stop rloop.snd
  match at24cm0x_write_cycle_wait cfg id fuel s2 with
  | none => none
  | some s3 =>
    let s4 := if cfg.wp_control_en then at24cm0x_wp AT24CM0X_WP_Mode.enabled s3 else s3
    some (error, s4)

/-- at24cm0x_write_page (src/at24cm0x.c lines 172-233). Note that the
integrity-check block precedes the accumulated-error check in the source. -/
def at24cm0x_write_page (cfg : Config) (id page : Nat) (data : Nat → Nat)
    (size fuel : Nat) (s : Bus) : Option (AT24CM0X_Status × Bus) :=
  if cfg.pages ≤ page then some (AT24CM0X_Status.pageError, s)
  else if size = 0 ∨ cfg.page_size ≤ size then some (AT24CM0X_Status.sizeError, s)
  else
    let address := page * cfg.page_size
    match at24cm0x_write_page_txn cfg id address data size fuel s with
    | none => none
    | some (error, s1) =>
      if cfg.integrity_check then
        let r := at24cm0x_read_sequential cfg id address size s1
        if r.fst ≠ AT24CM0X_Status.done then some (AT24CM0X_Status.twiError, r.snd.snd)
        else if at24cm0x_page_mismatch r.snd.fst data size then
          some (AT24CM0X_Status.dataError, r.snd.snd)
        else if error ≠ TWI_None then some (AT24CM0X_Status.twiError, r.snd.snd)
        else some (AT24CM0X_Status.done, r.snd.snd)
      else if error ≠ TWI_None then some (AT24CM0X_Status.twiError, s1)
      else some (AT24CM0X_Status.done, s1)

/-! ## Helper lemmas -/

lemma and_255_eq (x : Nat) : x &&& 255 = x % 256 := by
  have h := Nat.and_pow_two_sub_one_eq_mod x 8
  norm_num at h
  exact h

lemma land_mod256 (m x : Nat) (hm : m < 256) : m &&& (x % 256) = x &&& m := by
  rw [← and_255_eq, ← Nat.land_assoc, Nat.land_comm m x, and_255_eq,
      Nat.mod_eq_of_lt (lt_of_le_of_lt Nat.and_le_right hm)]

lemma lor_mod256 (x y : Nat) (hx : x < 256) (hy : y < 256) : (x ||| y) % 256 = x ||| y :=
  Nat.mod_eq_of_lt (Nat.or_lt_two_pow (n := 8) hx hy)

lemma high_mask_lt (cfg : Config) : AT24CM0X_ADDRESS_HIGH_MASK cfg < 256 := by
  unfold AT24CM0X_ADDRESS_HIGH_MASK
  split <;> norm_num

lemma select_byte_eq (cfg : Config) (id a : Nat) (h : id < 256) :
    at24cm0x_select_byte cfg id a = id ||| ((a >>> 16) &&& AT24CM0X_ADDRESS_HIGH_MASK cfg) := by
  unfold at24cm0x_select_byte
  rw [land_mod256 _ _ (high_mask_lt cfg)]
  exact lor_mod256 _ _ h (lt_of_le_of_lt Nat.and_le_right (high_mask_lt cfg))

/-- Fixed environment with no bus faults and all-zero read data; used to
instantiate quantified theorems at concrete inputs. -/
def bus0 : Bus := { errs := fun _ => 0, data := fun _ => 0 }

/-- The default build of src/at24cm0x.h: 2-Mbit part, all feature flags off. -/
def cfg0 : Config :=
  { memory_size := 262144, pages := 1024, page_size := 256, write_cycle_ms := 10,
    address_a2 := 1, address_a1 := 1, wp_control_en := false, multi_devices := false,
    write_ack_polling := false, integrity_check := false }

/-! ## C1: three-byte address phase -/

/-- C1: for every memory address `a`, the three-byte address phase emits, in
order, the device-select byte `id ||| ((a >>> 16) &&& ADDR_HIGH_MASK)` in
write direction, then `(a >>> 8) &&& 0xFF`, then `a &&& 0xFF`. -/
theorem c1_send_address_bytes (cfg : Config) (id a : Nat) (s : Bus) (h : id < 256) :
    (at24cm0x_send_address cfg id a s).2.trace =
      s.trace ++
        [BusEvent.address (id ||| ((a >>> 16) &&& AT24CM0X_ADDRESS_HIGH_MASK cfg))
           TWIDirection.wr,
         BusEvent.send ((a >>> 8) &&& 255), BusEvent.send (a &&& 255)] := by
  simp [at24cm0x_send_address, twi_address, twi_set, select_byte_eq cfg id a h, and_255_eq]

/-- Witness for C1 at the spec example address 0x1A2B3 on the 2-Mbit build. -/
theorem c1_send_address_bytes_witness :
    (0x54 : Nat) < 256 ∧
      (at24cm0x_send_address cfg0 0x54 0x1A2B3 bus0).2.trace =
        bus0.trace ++
          [BusEvent.address (0x54 ||| ((0x1A2B3 >>> 16) &&& AT24CM0X_ADDRESS_HIGH_MASK cfg0))
             TWIDirection.wr,
           BusEvent.send ((0x1A2B3 >>> 8) &&& 255), BusEvent.send (0x1A2B3 &&& 255)] :=
  ⟨by decide, c1_send_address_bytes cfg0 0x54 0x1A2B3 bus0 (by decide)⟩

/-! ## C2: sequential-read receive pattern -/

lemma read_loop_trace : ∀ (n : Nat) (s : Bus), 0 < n →
    (at24cm0x_read_loop n s).2.2.trace =
      s.trace ++ List.replicate (n - 1) (BusEvent.recv AckPolicy.ack) ++
        [BusEvent.recv AckPolicy.nack]
  | 0, _, h => absurd h (by omega)
  | 1, s, _ => by simp [at24cm0x_read_loop, twi_get]
  | (m + 2), s, _ => by
    have step : (at24cm0x_read_loop (m + 2) s).2.2 =
        (at24cm0x_read_loop (m + 1) (twi_get AckPolicy.ack s).2.2).2.2 := rfl
    rw [step, read_loop_trace (m + 1) _ (Nat.succ_pos m)]
    simp [twi_get, List.replicate_succ, Nat.add_sub_cancel]

/-- C2: for every valid address and size n > 0, the sequential read addresses
the device in read direction and then performs exactly n receive calls, the
first n-1 with ACK policy and the final one with NACK, followed by a stop. -/
theorem c2_read_sequential_recv_pattern (cfg : Config) (id a n : Nat) (s : Bus)
    (ha : a < cfg.memory_size) (hn : 0 < n) :
    (at24cm0x_read_sequential cfg id a n s).2.2.trace =
      s.trace ++
        [BusEvent.start, BusEvent.address (at24cm0x_select_byte cfg id a) TWIDirection.wr,
         BusEvent.send ((a >>> 8) % 256), BusEvent.send (a % 256), BusEvent.stop,
         BusEvent.start, BusEvent.address id TWIDirection.rd] ++
        List.replicate (n - 1) (BusEvent.recv AckPolicy.ack) ++
        [BusEvent.recv AckPolicy.nack, BusEvent.stop] := by
  unfold at24cm0x_read_sequential
  rw [if_neg (by omega), if_neg (by omega)]
  simp only [at24cm0x_send_address, twi_start, twi_stop, twi_address, twi_get]
  split
  all_goals
    simp [twi_stop, twi_set, twi_address, read_loop_trace, hn, List.append_assoc]

/-- Witness for C2 at address 0x100 and size 4. -/
theorem c2_read_sequential_recv_pattern_witness :
    (0x100 : Nat) < cfg0.memory_size ∧ (0 : Nat) < 4 ∧
      (at24cm0x_read_sequential cfg0 0x54 0x100 4 bus0).2.2.trace =
        bus0.trace ++
          [BusEvent.start, BusEvent.address (at24cm0x_select_byte cfg0 0x54 0x100) TWIDirection.wr,
           BusEvent.send ((0x100 >>> 8) % 256), BusEvent.send (0x100 % 256), BusEvent.stop,
           BusEvent.start, BusEvent.address 0x54 TWIDirection.rd] ++
          List.replicate 3 (BusEvent.recv AckPolicy.ack) ++
          [BusEvent.recv AckPolicy.nack, BusEvent.stop] :=
  ⟨by decide, by decide, c2_read_sequential_recv_pattern cfg0 0x54 0x100 4 bus0 (by decide) (by decide)⟩

/-! ## C6: input validation short-circuits with zero bus traffic -/

/-- C6: for every a at or beyond MEMORY_SIZE, write_byte, read_byte and
read_sequential return ADDRESS_ERROR leaving the bus untouched, and for every
p at or beyond PAGES, write_page returns PAGE_ERROR leaving the bus untouched. -/
theorem c6_validation_short_circuit (cfg : Config) (id a d n p size fuel temp0 : Nat)
    (data : Nat → Nat) (s : Bus) :
    (cfg.memory_size ≤ a →
      at24cm0x_write_byte cfg id a d fuel s = some (AT24CM0X_Status.addressError, s) ∧
      at24cm0x_read_byte cfg id a temp0 s = (AT24CM0X_Status.addressError, temp0, s) ∧
      at24cm0x_read_sequential cfg id a n s = (AT24CM0X_Status.addressError, [], s)) ∧
    (cfg.pages ≤ p →
      at24cm0x_write_page cfg id p data size fuel s = some (AT24CM0X_Status.pageError, s)) := by
  constructor
  · intro h
    refine ⟨?_, ?_, ?_⟩ <;>
      simp [at24cm0x_write_byte, at24cm0x_read_byte, at24cm0x_read_sequential, h]
  · intro h
    simp [at24cm0x_write_page, h]

/-- Witness for C6 on the default build: a = 0x40000 = MEMORY_SIZE and
p = 1024 = PAGES are rejected with the bus left exactly as it was. -/
theorem c6_validation_short_circuit_witness :
    cfg0.memory_size ≤ 0x40000 ∧
      at24cm0x_write_byte cfg0 0x54 0x40000 7 1 bus0 = some (AT24CM0X_Status.addressError, bus0) ∧
      cfg0.pages ≤ 1024 ∧
      at24cm0x_write_page cfg0 0x54 1024 (fun _ => 0) 1 1 bus0 =
        some (AT24CM0X_Status.pageError, bus0) :=
  ⟨by decide,
   ((c6_validation_short_circuit cfg0 0x54 0x40000 7 1 1024 1 1 0 (fun _ => 0) bus0).1
      (by decide)).1,
   by decide,
   (c6_validation_short_circuit cfg0 0x54 0x40000 7 1 1024 1 1 0 (fun _ => 0) bus0).2
      (by decide)⟩

/-! ## C7: write_page size guard -/

lemma write_page_never_size_error (cfg : Config) (id p size fuel : Nat) (data : Nat → Nat)
    (s s2 : Bus) (hp : p < cfg.pages) (hc : ¬(size = 0 ∨ cfg.page_size ≤ size))
    (hres : at24cm0x_write_page cfg id p data size fuel s = some (AT24CM0X_Status.sizeError, s2)) :
    False := by
  rcases htxn : at24cm0x_write_page_txn cfg id (p * cfg.page_size) data size fuel s with _ | ⟨e, s1⟩ <;>
    simp only [at24cm0x_write_page] at hres <;>
    rw [if_neg (by omega), if_neg hc] at hres <;>
    rw [htxn] at hres <;>
    simp only [] at hres
  · exact Option.noConfusion hres
  · repeat' split at hres
    all_goals simp at hres

/-- C7: for every valid page index p, write_page returns SIZE_ERROR exactly
when size = 0 or size ≥ PAGE_SIZE (strict upper bound), and in that case the
bus is left untouched. -/
theorem c7_write_page_size_guard (cfg : Config) (id p size fuel : Nat) (data : Nat → Nat)
    (s : Bus) (hp : p < cfg.pages) :
    ((size = 0 ∨ cfg.page_size ≤ size) ↔
      (∃ s2, at24cm0x_write_page cfg id p data size fuel s =
        some (AT24CM0X_Status.sizeError, s2))) ∧
    ((size = 0 ∨ cfg.page_size ≤ size) →
      at24cm0x_write_page cfg id p data size fuel s = some (AT24CM0X_Status.sizeError, s)) := by
  have hguard : (size = 0 ∨ cfg.page_size ≤ size) →
      at24cm0x_write_page cfg id p data size fuel s = some (AT24CM0X_Status.sizeError, s) := by
    intro hc
    unfold at24cm0x_write_page
    rw [if_neg (by omega), if_pos hc]
  refine ⟨⟨fun hc => ⟨s, hguard hc⟩, ?_⟩, hguard⟩
  rintro ⟨s2, hres⟩
  by_contra hc
  exact write_page_never_size_error cfg id p size fuel data s s2 hp hc hres

/-- Witness for C7 at the spec example: write_page(2, buf, 256) with the
default PAGE_SIZE = 256 is a size error with no bus traffic. -/
theorem c7_write_page_size_guard_witness :
    (2 : Nat) < cfg0.pages ∧
      ((256 : Nat) = 0 ∨ cfg0.page_size ≤ 256) ∧
      at24cm0x_write_page cfg0 0x54 2 (fun _ => 0x11) 256 1 bus0 =
        some (AT24CM0X_Status.sizeError, bus0) :=
  ⟨by decide, by decide,
   (c7_write_page_size_guard cfg0 0x54 2 256 1 (fun _ => 0x11) bus0 (by decide)).2
     (by decide)⟩

/-! ## C3: address-phase errors in write_page -/

/-- Environment in which the three calls of the address phase all report a
bus fault and every later call succeeds. -/
def busAddrFault : Bus := { errs := fun k => if k < 3 then 1 else 0, data := fun _ => 0 }

/-- C3 fails on the code: in at24cm0x_write_page the value returned by
at24cm0x_send_address is discarded (src/at24cm0x.c line 193), so a build with
no integrity check returns Done even though every call of the three-byte
address phase reported a fault; at24cm0x_write_byte with the same environment
accumulates the same faults and returns the transport error. -/
theorem c3_write_page_drops_address_phase_errors :
    busAddrFault.errs 0 = 1 ∧ busAddrFault.errs 1 = 1 ∧ busAddrFault.errs 2 = 1 ∧
      (at24cm0x_write_page cfg0 0x54 0 (fun _ => 0xAB) 1 1 busAddrFault).map Prod.fst =
        some AT24CM0X_Status.done ∧
      (at24cm0x_write_byte cfg0 0x54 0 0xAB 1 busAddrFault).map Prod.fst =
        some AT24CM0X_Status.twiError :=
  ⟨rfl, rfl, rfl, rfl, rfl⟩

/-! ## C9: ADDR_HIGH_MASK bits of the stored identifier are zero -/

lemma lor_and_distrib (x y z : Nat) : (x ||| y) &&& z = (x &&& z) ||| (y &&& z) := by
  rw [Nat.land_comm _ z, Nat.and_or_distrib_left, Nat.land_comm z x, Nat.land_comm z y]

lemma and_three_eq (x : Nat) : x &&& 3 = x % 4 := by
  have h := Nat.and_pow_two_sub_one_eq_mod x 2
  norm_num at h
  exact h

lemma shiftl2_and_one (a : Nat) : (a <<< 2) &&& 1 = 0 := by
  rw [Nat.shiftLeft_eq, Nat.and_one_is_mod]
  omega

lemma shiftl1_and_one (a : Nat) : (a <<< 1) &&& 1 = 0 := by
  rw [Nat.shiftLeft_eq, Nat.and_one_is_mod]
  omega

lemma shiftl2_and_three (a : Nat) : (a <<< 2) &&& 3 = 0 := by
  rw [Nat.shiftLeft_eq, and_three_eq]
  omega

lemma and6_and_one (x : Nat) : (x &&& 6) &&& 1 = 0 := by
  rw [Nat.land_assoc]
  exact Nat.and_zero x

lemma and4_and_three (x : Nat) : (x &&& 4) &&& 3 = 0 := by
  rw [Nat.land_assoc]
  exact Nat.and_zero x

/-- C9: the bits of the stored device identifier selected by ADDR_HIGH_MASK
are zero after at24cm0x_init and after at24cm0x_device, for every
configuration and every requested identifier; in the embedding no other
operation assigns the stored identifier, so the masked bits stay zero
between transactions and the high address bits live only in the transient
byte built by at24cm0x_select_byte. -/
theorem c9_high_mask_bits_zero (cfg : Config) (x : Nat) :
    at24cm0x_init_id cfg &&& AT24CM0X_ADDRESS_HIGH_MASK cfg = 0 ∧
    at24cm0x_device cfg x &&& AT24CM0X_ADDRESS_HIGH_MASK cfg = 0 := by
  have h801 : (80 : Nat) &&& 1 = 0 := by decide
  have h803 : (80 : Nat) &&& 3 = 0 := by decide
  unfold at24cm0x_init_id at24cm0x_device AT24CM0X_ADDRESS AT24CM0X_ADDRESS_MASK
    AT24CM0X_ADDRESS_HIGH_MASK AT24CM0X_BASE_ADDRESS
  by_cases hm : cfg.memory_size < 262144 <;> by_cases hd : cfg.multi_devices <;>
    simp [hm, hd, -Nat.and_one_is_mod, lor_and_distrib, shiftl2_and_one, shiftl1_and_one,
      shiftl2_and_three, and6_and_one, and4_and_three, h801, h803]

/-! ## C4: write acknowledge polling -/

/-- The events of `n` probe iterations of the acknowledge-polling loop:
each iteration is a start condition followed by addressing the device in
write direction. -/
def pollEvents (id : Nat) : Nat → List BusEvent
  | 0 => []
  | n + 1 => BusEvent.start :: BusEvent.address id TWIDirection.wr :: pollEvents id n

lemma ack_polling_loop_spec (id : Nat) : ∀ (k fuel : Nat) (s : Bus),
    (∀ j, j < k → s.errs (s.ecnt + j) = TWI_Ack) →
    s.errs (s.ecnt + k) = TWI_None → k < fuel →
    ack_polling_loop id fuel s =
      some { s with ecnt := s.ecnt + k + 1, trace := s.trace ++ pollEvents id (k + 1) }
  | 0, 0, _, _, _, hfuel => absurd hfuel (by omega)
  | 0, fuel + 1, s, _, hack, _ => by
    have hack0 : s.errs s.ecnt = TWI_None := by simpa using hack
    simp [ack_polling_loop, twi_start, twi_address, hack0, TWI_None, TWI_Ack, pollEvents]
  | k + 1, 0, _, _, _, hfuel => absurd hfuel (by omega)
  | k + 1, fuel + 1, s, hnack, hack, hfuel => by
    have hfirst : s.errs s.ecnt = TWI_Ack := by
      have := hnack 0 (by omega)
      simpa using this
    have ih := ack_polling_loop_spec id k fuel
      { s with ecnt := s.ecnt + 1,
               trace := s.trace ++ [BusEvent.start] ++ [BusEvent.address id TWIDirection.wr] }
      (fun j hj => by
        have := hnack (j + 1) (by omega)
        simpa [Nat.add_assoc, Nat.add_comm 1 j] using this)
      (by
        have : s.ecnt + (k + 1) = s.ecnt + 1 + k := by omega
        simpa [this] using hack)
      (by omega)
    simp only [ack_polling_loop, twi_start, twi_address, hfirst, if_pos]
    rw [ih]
    simp [pollEvents, List.append_assoc, Bus.mk.injEq]
    omega

/-- C4: when acknowledge polling is compiled in, the wait loop repeatedly
issues start and addresses the device in write direction; if the device
answers NACK (modelled as the TWI_Ack error) for the first k probes and ACK
(TWI_None) on probe k, the loop runs exactly k+1 iterations, then terminates
and issues a stop condition. -/
theorem c4_ack_polling_terminates_on_ack (id fuel k : Nat) (s : Bus)
    (hnack : ∀ j, j < k → s.errs (s.ecnt + j) = TWI_Ack)
    (hack : s.errs (s.ecnt + k) = TWI_None)
    (hfuel : k < fuel) :
    at24cm0x_write_acknowledge_polling id fuel s =
      some { s with ecnt := s.ecnt + k + 1,
                    trace := s.trace ++ pollEvents id (k + 1) ++ [BusEvent.stop] } := by
  unfold at24cm0x_write_acknowledge_polling
  rw [ack_polling_loop_spec id k fuel s hnack hack hfuel]
  simp [twi_stop, List.append_assoc]

/-- Environment for the C4 witness: the device answers NACK on the first
probe and ACK on the second. -/
def busPoll : Bus := { errs := fun j => if j = 0 then TWI_Ack else TWI_None, data := fun _ => 0 }

/-- Witness for C4: with one NACK followed by an ACK the polling loop probes
twice and stops. -/
theorem c4_ack_polling_terminates_on_ack_witness :
    (∀ j, j < 1 → busPoll.errs (busPoll.ecnt + j) = TWI_Ack) ∧
      busPoll.errs (busPoll.ecnt + 1) = TWI_None ∧ 1 < 3 ∧
      at24cm0x_write_acknowledge_polling 0x54 3 busPoll =
        some { busPoll with ecnt := busPoll.ecnt + 1 + 1,
                            trace := busPoll.trace ++ pollEvents 0x54 (1 + 1) ++ [BusEvent.stop] } :=
  ⟨by decide, by decide, by decide,
   c4_ack_polling_terminates_on_ack 0x54 3 1 busPoll (by decide) (by decide) (by decide)⟩

/-! ## C8: write-protect pairing on every exit path -/

/-- Project a bus event to the WP mode it drives, if any. -/
def wpEventMode : BusEvent → Option AT24CM0X_WP_Mode
  | BusEvent.wp m => some m
  | _ => none

/-- The sequence of WP-pin drives contained in a trace. -/
def wpCalls (t : List BusEvent) : List AT24CM0X_WP_Mode :=
  t.filterMap wpEventMode

lemma wpCalls_append (t u : List BusEvent) : wpCalls (t ++ u) = wpCalls t ++ wpCalls u :=
  List.filterMap_append t u wpEventMode

lemma wpCalls_nil : wpCalls [] = [] := rfl

lemma wpCalls_cons (e : BusEvent) (t : List BusEvent) :
    wpCalls (e :: t) = (wpEventMode e).toList ++ wpCalls t := by
  unfold wpCalls
  rw [List.filterMap_cons]
  cases wpEventMode e <;> simp

lemma wpCalls_read_loop : ∀ (n : Nat) (s : Bus),
    wpCalls (at24cm0x_read_loop n s).2.2.trace = wpCalls s.trace
  | 0, _ => rfl
  | n + 1, s => by
    have step : (at24cm0x_read_loop (n + 1) s).2.2 =
        (at24cm0x_read_loop n
          (twi_get (if n = 0 then AckPolicy.nack else AckPolicy.ack) s).2.2).2.2 := rfl
    rw [step, wpCalls_read_loop n _]
    simp [twi_get, wpCalls, wpEventMode, List.filterMap_append]

lemma wpCalls_write_loop (data : Nat → Nat) : ∀ (n i : Nat) (s : Bus),
    wpCalls (at24cm0x_write_loop data i n s).2.trace = wpCalls s.trace
  | 0, _, _ => rfl
  | n + 1, i, s => by
    have step : (at24cm0x_write_loop data i (n + 1) s).2 =
        (at24cm0x_write_loop data (i + 1) n (twi_set (data i) s).2).2 := rfl
    rw [step, wpCalls_write_loop data n (i + 1) _]
    simp [twi_set, wpCalls, wpEventMode, List.filterMap_append]

lemma wpCalls_ack_polling_loop (id : Nat) : ∀ (fuel : Nat) (s s2 : Bus),
    ack_polling_loop id fuel s = some s2 → wpCalls s2.trace = wpCalls s.trace
  | 0, s, s2, h => Option.noConfusion h
  | fuel + 1, s, s2, h => by
    simp only [ack_polling_loop] at h
    split at h
    · have ih := wpCalls_ack_polling_loop id fuel _ s2 h
      rw [ih]
      simp [twi_start, twi_address, wpCalls, wpEventMode, List.filterMap_append]
    · simp only [Option.some.injEq] at h
      rw [← h]
      simp [twi_start, twi_address, wpCalls, wpEventMode, List.filterMap_append]

lemma wpCalls_send_address (cfg : Config) (id a : Nat) (s : Bus) :
    wpCalls (at24cm0x_send_address cfg id a s).2.trace = wpCalls s.trace := by
  simp [at24cm0x_send_address, twi_address, twi_set, wpCalls, wpEventMode,
    List.filterMap_append]

lemma wpCalls_read_byte (cfg : Config) (id a t0 : Nat) (s : Bus) :
    wpCalls (at24cm0x_read_byte cfg id a t0 s).2.2.trace = wpCalls s.trace := by
  unfold at24cm0x_read_byte
  by_cases h : cfg.memory_size ≤ a
  · simp [h]
  · rw [if_neg h]
    simp only [twi_start, twi_stop, twi_address, twi_set, twi_get, at24cm0x_send_address]
    split <;>
      simp [wpCalls, wpEventMode, List.filterMap_append]

lemma wpCalls_read_sequential (cfg : Config) (id a n : Nat) (s : Bus) :
    wpCalls (at24cm0x_read_sequential cfg id a n s).2.2.trace = wpCalls s.trace := by
  unfold at24cm0x_read_sequential
  by_cases h1 : cfg.memory_size ≤ a
  · simp [h1]
  · by_cases h2 : n = 0
    · simp [h1, h2]
    · rw [if_neg h1, if_neg h2]
      simp only [twi_start, twi_stop, twi_address, twi_set, twi_get, at24cm0x_send_address]
      split <;>
        simp [wpCalls_read_loop, wpCalls_append, wpCalls_cons, wpCalls_nil, wpEventMode]

lemma wpCalls_write_cycle_wait (cfg : Config) (id fuel : Nat) (s s2 : Bus)
    (h : at24cm0x_write_cycle_wait cfg id fuel s = some s2) :
    wpCalls s2.trace = wpCalls s.trace := by
  unfold at24cm0x_write_cycle_wait at h
  split at h
  · unfold at24cm0x_write_acknowledge_polling at h
    rcases hl : ack_polling_loop id fuel s with _ | s3
    · rw [hl] at h
      exact Option.noConfusion h
    · rw [hl] at h
      rw [show Option.map twi_stop (some s3) = some (twi_stop s3) from rfl] at h
      rw [Option.some.injEq] at h
      rw [← h]
      have h3 := wpCalls_ack_polling_loop id fuel s s3 hl
      simp [twi_stop, wpCalls, wpEventMode, List.filterMap_append]
      exact h3
  · simp only [Option.some.injEq] at h
    rw [← h]
    simp [systick_timer_wait_ms, wpCalls, wpEventMode, List.filterMap_append]

lemma wpCalls_write_byte_txn (cfg : Config) (id a d fuel e : Nat) (s s1 : Bus)
    (hwp : cfg.wp_control_en = true)
    (h : at24cm0x_write_byte_txn cfg id a d fuel s = some (e, s1)) :
    wpCalls s1.trace =
      wpCalls s.trace ++ [AT24CM0X_WP_Mode.disabled, AT24CM0X_WP_Mode.enabled] := by
  unfold at24cm0x_write_byte_txn at h
  simp only [hwp, if_true] at h
  split at h
  · exact Option.noConfusion h
  · next s3 heq =>
    simp only [Option.some.injEq, Prod.mk.injEq] at h
    obtain ⟨-, h2⟩ := h
    rw [← h2]
    have hw := wpCalls_write_cycle_wait cfg id fuel _ s3 heq
    simp only [at24cm0x_wp, twi_stop, twi_set, twi_address, twi_start, at24cm0x_send_address,
      wpCalls_append, wpCalls_cons, wpCalls_nil, wpEventMode, hw]
    simp [wpCalls_append, wpCalls_cons, wpCalls_nil, wpEventMode]

lemma wpCalls_write_page_txn (cfg : Config) (id a size fuel e : Nat) (data : Nat → Nat)
    (s s1 : Bus) (hwp : cfg.wp_control_en = true)
    (h : at24cm0x_write_page_txn cfg id a data size fuel s = some (e, s1)) :
    wpCalls s1.trace =
      wpCalls s.trace ++ [AT24CM0X_WP_Mode.disabled, AT24CM0X_WP_Mode.enabled] := by
  unfold at24cm0x_write_page_txn at h
  simp only [hwp, if_true] at h
  split at h
  · exact Option.noConfusion h
  · next s3 heq =>
    simp only [Option.some.injEq, Prod.mk.injEq] at h
    obtain ⟨-, h2⟩ := h
    rw [← h2]
    have hw := wpCalls_write_cycle_wait cfg id fuel _ s3 heq
    simp only [at24cm0x_wp, twi_stop, twi_start, at24cm0x_send_address, twi_address, twi_set,
      wpCalls_append, wpCalls_cons, wpCalls_nil, wpEventMode, wpCalls_write_loop, hw]
    simp [wpCalls_append, wpCalls_cons, wpCalls_nil, wpEventMode, wpCalls_write_loop]

/-- C8: when write-protect control is compiled in, every completed execution
of write_byte and write_page that passed validation drives the WP pin exactly
twice, first DISABLED then ENABLED, so every exit path re-asserts
write-protect and the device is never left unlocked. -/
theorem c8_wp_reasserted_on_every_exit (cfg : Config) (id a d p size fuel : Nat)
    (data : Nat → Nat) (s : Bus) (hwp : cfg.wp_control_en = true) :
    (∀ st s2, a < cfg.memory_size →
      at24cm0x_write_byte cfg id a d fuel s = some (st, s2) →
      wpCalls s2.trace =
        wpCalls s.trace ++ [AT24CM0X_WP_Mode.disabled, AT24CM0X_WP_Mode.enabled]) ∧
    (∀ st s2, p < cfg.pages → ¬(size = 0 ∨ cfg.page_size ≤ size) →
      at24cm0x_write_page cfg id p data size fuel s = some (st, s2) →
      wpCalls s2.trace =
        wpCalls s.trace ++ [AT24CM0X_WP_Mode.disabled, AT24CM0X_WP_Mode.enabled]) := by
  constructor
  · intro st s2 ha hres
    unfold at24cm0x_write_byte at hres
    rw [if_neg (by omega)] at hres
    split at hres
    · exact Option.noConfusion hres
    · next e s1 htxn =>
      have htx := wpCalls_write_byte_txn cfg id a d fuel e s s1 hwp htxn
      simp only [ne_eq] at hres
      by_cases he : ¬(e = TWI_None)
      · rw [if_pos he] at hres
        simp only [Option.some.injEq, Prod.mk.injEq] at hres
        rw [← hres.2]
        exact htx
      · rw [if_neg he] at hres
        by_cases hic : cfg.integrity_check = true
        · rw [if_pos hic] at hres
          by_cases h1 : ¬((at24cm0x_read_byte cfg id a 0 s1).1 = AT24CM0X_Status.done)
          · rw [if_pos h1] at hres
            simp only [Option.some.injEq, Prod.mk.injEq] at hres
            rw [← hres.2, wpCalls_read_byte]
            exact htx
          · rw [if_neg h1] at hres
            by_cases h2 : ¬(d = (at24cm0x_read_byte cfg id a 0 s1).2.1)
            · rw [if_pos h2] at hres
              simp only [Option.some.injEq, Prod.mk.injEq] at hres
              rw [← hres.2, wpCalls_read_byte]
              exact htx
            · rw [if_neg h2] at hres
              simp only [Option.some.injEq, Prod.mk.injEq] at hres
              rw [← hres.2, wpCalls_read_byte]
              exact htx
        · rw [if_neg hic] at hres
          simp only [Option.some.injEq, Prod.mk.injEq] at hres
          rw [← hres.2]
          exact htx
  · intro st s2 hp hsize hres
    rcases htxn : at24cm0x_write_page_txn cfg id (p * cfg.page_size) data size fuel s with _ | ⟨e, s1⟩ <;>
      simp only [at24cm0x_write_page] at hres <;>
      rw [if_neg (by omega), if_neg hsize] at hres <;>
      rw [htxn] at hres
    · exact Option.noConfusion hres
    · have htx := wpCalls_write_page_txn cfg id (p * cfg.page_size) size fuel e data s s1 hwp htxn
      simp only [ne_eq] at hres
      by_cases hic : cfg.integrity_check = true
      · rw [if_pos hic] at hres
        by_cases h1 : ¬((at24cm0x_read_sequential cfg id (p * cfg.page_size) size s1).1 = AT24CM0X_Status.done)
        · rw [if_pos h1] at hres
          simp only [Option.some.injEq, Prod.mk.injEq] at hres
          rw [← hres.2, wpCalls_read_sequential]
          exact htx
        · rw [if_neg h1] at hres
          by_cases h2 : at24cm0x_page_mismatch
              (at24cm0x_read_sequential cfg id (p * cfg.page_size) size s1).2.1 data size = true
          · rw [if_pos h2] at hres
            simp only [Option.some.injEq, Prod.mk.injEq] at hres
            rw [← hres.2, wpCalls_read_sequential]
            exact htx
          · rw [if_neg h2] at hres
            by_cases h3 : ¬(e = TWI_None)
            · rw [if_pos h3] at hres
              simp only [Option.some.injEq, Prod.mk.injEq] at hres
              rw [← hres.2, wpCalls_read_sequential]
              exact htx
            · rw [if_neg h3] at hres
              simp only [Option.some.injEq, Prod.mk.injEq] at hres
              rw [← hres.2, wpCalls_read_sequential]
              exact htx
      · rw [if_neg hic] at hres
        by_cases h3 : ¬(e = TWI_None)
        · rw [if_pos h3] at hres
          simp only [Option.some.injEq, Prod.mk.injEq] at hres
          rw [← hres.2]
          exact htx
        · rw [if_neg h3] at hres
          simp only [Option.some.injEq, Prod.mk.injEq] at hres
          rw [← hres.2]
          exact htx

/-- Configuration for the C8 witness: WP control compiled in, all other
flags off. -/
def cfgWP : Config := { cfg0 with wp_control_en := true }

/-- Witness for C8: a write_byte at address 0 under the fault-free
environment drives WP DISABLED then ENABLED. -/
theorem c8_wp_reasserted_on_every_exit_witness :
    cfgWP.wp_control_en = true ∧ (0 : Nat) < cfgWP.memory_size ∧
      (∀ st s2, (0 : Nat) < cfgWP.memory_size →
        at24cm0x_write_byte cfgWP 0x54 0 7 1 bus0 = some (st, s2) →
        wpCalls s2.trace =
          wpCalls bus0.trace ++ [AT24CM0X_WP_Mode.disabled, AT24CM0X_WP_Mode.enabled]) :=
  ⟨by decide, by decide,
   (c8_wp_reasserted_on_every_exit cfgWP 0x54 0 7 0 1 1 (fun _ => 0) bus0 (by decide)).1⟩

/-! ## C10: write_byte integrity read-back -/

/-- C10: with integrity checking compiled in and the write transaction free
of accumulated errors, write_byte returns TWI_Error whenever the read-back
status differs from Done, and Data_Error exactly when the read-back succeeds
and the byte read differs from the byte written. -/
theorem c10_write_byte_integrity_readback (cfg : Config) (id a d fuel : Nat) (s : Bus)
    (hic : cfg.integrity_check = true) (ha : a < cfg.memory_size) :
    match at24cm0x_write_byte_txn cfg id a d fuel s with
    | none => at24cm0x_write_byte cfg id a d fuel s = none
    | some (e, s1) =>
      e = TWI_None →
      at24cm0x_write_byte cfg id a d fuel s =
        some ((if (at24cm0x_read_byte cfg id a 0 s1).1 ≠ AT24CM0X_Status.done then
                 AT24CM0X_Status.twiError
               else if d ≠ (at24cm0x_read_byte cfg id a 0 s1).2.1 then
                 AT24CM0X_Status.dataError
               else AT24CM0X_Status.done),
              (at24cm0x_read_byte cfg id a 0 s1).2.2) := by
  split
  · next heq =>
    unfold at24cm0x_write_byte
    rw [if_neg (by omega), heq]
  · next e s1 heq =>
    intro he
    unfold at24cm0x_write_byte
    rw [if_neg (by omega), heq]
    simp only [ne_eq]
    rw [if_neg (by simp [he]), if_pos hic]
    split_ifs <;> rfl

/-- Build with integrity checking compiled in. -/
def cfgIC : Config := { cfg0 with integrity_check := true }

/-- Witness for C10: fault-free write of byte 1 at address 0 whose read-back
returns 2; the theorem instance forces the Data_Error classification. -/
theorem c10_write_byte_integrity_readback_witness :
    cfgIC.integrity_check = true ∧ (0 : Nat) < cfgIC.memory_size ∧
      (match at24cm0x_write_byte_txn cfgIC 0x54 0 1 1 { errs := fun _ => 0, data := fun _ => 2 } with
       | none => at24cm0x_write_byte cfgIC 0x54 0 1 1 { errs := fun _ => 0, data := fun _ => 2 } = none
       | some (e, s1) =>
         e = TWI_None →
         at24cm0x_write_byte cfgIC 0x54 0 1 1 { errs := fun _ => 0, data := fun _ => 2 } =
           some ((if (at24cm0x_read_byte cfgIC 0x54 0 0 s1).1 ≠ AT24CM0X_Status.done then
                    AT24CM0X_Status.twiError
                  else if (1 : Nat) ≠ (at24cm0x_read_byte cfgIC 0x54 0 0 s1).2.1 then
                    AT24CM0X_Status.dataError
                  else AT24CM0X_Status.done),
                 (at24cm0x_read_byte cfgIC 0x54 0 0 s1).2.2)) :=
  ⟨by decide, by decide,
   c10_write_byte_integrity_readback cfgIC 0x54 0 1 1 { errs := fun _ => 0, data := fun _ => 2 }
     (by decide) (by decide)⟩

/-! ## C5: order of the write_page integrity check -/

/-- Environment for the C5 counterexample: the fourth bus call (the data
byte of the page write) reports a fault, everything else succeeds, and reads
deliver 7. -/
def busC5 : Bus := { errs := fun k => if k = 3 then 1 else 0, data := fun _ => 7 }

/-- C5 fails on the code: writing the single byte 5 to page 0 accumulates a
bus error (the transaction error flag is 1), yet write_page performs the
read-back first and returns Data_Error for the mismatch against 7, not the
transport error the claim requires. -/
theorem c5_counterexample_dataerror_despite_bus_error :
    (at24cm0x_write_page_txn cfgIC 0x54 0 (fun _ => 5) 1 1 busC5).map Prod.fst = some 1 ∧
      (at24cm0x_write_page cfgIC 0x54 0 (fun _ => 5) 1 1 busC5).map Prod.fst =
        some AT24CM0X_Status.dataError :=
  ⟨rfl, rfl⟩

/-- C5 amended: with integrity checking compiled in, write_page runs the
read-back verification before consulting the accumulated error flag: a
failed read-back yields TWI_Error, a mismatch yields Data_Error even when a
bus error was accumulated during the write transaction, and the accumulated
flag produces TWI_Error only when the verification finds no mismatch. -/
theorem c5_amended_write_page_integrity_order (cfg : Config) (id p size fuel : Nat)
    (data : Nat → Nat) (s : Bus) (hic : cfg.integrity_check = true)
    (hp : p < cfg.pages) (hsize : ¬(size = 0 ∨ cfg.page_size ≤ size)) :
    match at24cm0x_write_page_txn cfg id (p * cfg.page_size) data size fuel s with
    | none => at24cm0x_write_page cfg id p data size fuel s = none
    | some (e, s1) =>
      at24cm0x_write_page cfg id p data size fuel s =
        some ((if (at24cm0x_read_sequential cfg id (p * cfg.page_size) size s1).1 ≠
                  AT24CM0X_Status.done then
                 AT24CM0X_Status.twiError
               else if at24cm0x_page_mismatch
                   (at24cm0x_read_sequential cfg id (p * cfg.page_size) size s1).2.1 data size then
                 AT24CM0X_Status.dataError
               else if e ≠ TWI_None then AT24CM0X_Status.twiError
               else AT24CM0X_Status.done),
              (at24cm0x_read_sequential cfg id (p * cfg.page_size) size s1).2.2) := by
  split
  · next heq =>
    simp only [at24cm0x_write_page]
    rw [if_neg (by omega), if_neg hsize, heq]
  · next e s1 heq =>
    simp only [at24cm0x_write_page]
    rw [if_neg (by omega), if_neg hsize, heq]
    simp only [ne_eq]
    rw [if_pos hic]
    split_ifs <;> rfl

/-- Witness for the amended C5 at page 0 with one byte and the
counterexample environment. -/
theorem c5_amended_write_page_integrity_order_witness :
    cfgIC.integrity_check = true ∧ (0 : Nat) < cfgIC.pages ∧
      ¬((1 : Nat) = 0 ∨ cfgIC.page_size ≤ 1) ∧
      (match at24cm0x_write_page_txn cfgIC 0x54 (0 * cfgIC.page_size) (fun _ => 5) 1 1 busC5 with
       | none => at24cm0x_write_page cfgIC 0x54 0 (fun _ => 5) 1 1 busC5 = none
       | some (e, s1) =>
         at24cm0x_write_page cfgIC 0x54 0 (fun _ => 5) 1 1 busC5 =
           some ((if (at24cm0x_read_sequential cfgIC 0x54 (0 * cfgIC.page_size) 1 s1).1 ≠
                     AT24CM0X_Status.done then
                    AT24CM0X_Status.twiError
                  else if at24cm0x_page_mismatch
                      (at24cm0x_read_sequential cfgIC 0x54 (0 * cfgIC.page_size) 1 s1).2.1
                      (fun _ => 5) 1 then
                    AT24CM0X_Status.dataError
                  else if e ≠ TWI_None then AT24CM0X_Status.twiError
                  else AT24CM0X_Status.done),
                 (at24cm0x_read_sequential cfgIC 0x54 (0 * cfgIC.page_size) 1 s1).2.2)) :=
  ⟨by decide, by decide, by decide,
   c5_amended_write_page_integrity_order cfgIC 0x54 0 1 1 (fun _ => 5) busC5
     (by decide) (by decide) (by decide)⟩
